import Mathlib

/-
Verification of the garage-door motion controller (class GarageDoorHandler).
Heights are modelled as rationals; the asynchronous JavaScript flow is
modelled as explicit state passing: each operation returns the updated door
state, the number of button pulses it issued, and the trace of values
assigned to currentDoorHeight, in order. A request running to resolution is
modelled by inlining every timer callback at the point where the code
schedules and awaits it; the pending-timer registry needed for the emergency
stop is modelled separately below (ControllerState).
-/

-- #region Constants (from garageDoorHandler.ts)

/-- Time it takes the door to go from all the way down to all the way up. -/
def DOOR_OPEN_TIME_SEC : ℚ := 1675 / 100

/-- Time it takes the door to go from all the way up to all the way down. -/
def DOOR_CLOSE_TIME_SEC : ℚ := 1575 / 100

/-- Time the opener signal must be held for a press to register. -/
def DOOR_OPENER_SIGNAL_HOLD_TIME_SEC : ℚ := 25 / 100

/-- Minimum spacing between two button presses. -/
def MIN_TIME_BETWEEN_BUTTON_PRESSES_SEC : ℚ := 75 / 100

/-- Distance the bottom edge of the door is off the ground when fully open. -/
def DOOR_HEIGHT_FEET : ℚ := 70833 / 10000

/-- Maximum height at which the door automatically bounces back up after
touching the floor. The source sets this to -1 (marked as unmeasured). -/
def DOOR_MAX_AUTO_BOUNCE_BACK_HEIGHT_FEET : ℚ := -1

/-- Delay between the door reaching the floor and starting to bounce back. -/
def DOOR_AUTO_BOUNCE_BACK_DELAY_SEC : ℚ := 5 / 10

/-- Computed rate at which the door opens. -/
def DOOR_OPEN_RATE_FEET_PER_SEC : ℚ := DOOR_HEIGHT_FEET / DOOR_OPEN_TIME_SEC

/-- Computed rate at which the door closes. -/
def DOOR_CLOSE_RATE_FEET_PER_SEC : ℚ := DOOR_HEIGHT_FEET / DOOR_CLOSE_TIME_SEC

-- #endregion

/-- Movement kinds accepted by handleRequest: the movement union type. -/
inductive Movement where
  | up
  | down
  | to
deriving DecidableEq, Repr

/-- Mutable fields of GarageDoorHandler that the motion logic touches:
currentDoorHeight, lastDirectionWasUp, doorIsMoving. -/
structure DoorState where
  currentDoorHeight : ℚ
  lastDirectionWasUp : Bool
  doorIsMoving : Bool
deriving DecidableEq, Repr

/-- Field defaults of the GarageDoorHandler constructor: height 0, last
direction not up, not moving. -/
def initialState : DoorState :=
  { currentDoorHeight := 0, lastDirectionWasUp := false, doorIsMoving := false }

/-- Result of one modelled operation: the new door state, the number of
button pulses issued, and the successive values assigned to
currentDoorHeight (one entry per mutation, in order). -/
structure StepResult where
  state : DoorState
  pulses : Nat
  trace : List ℚ
deriving DecidableEq, Repr

/-- Result of one request running to resolution; tookBounceBack records
which branch of handleHeightRequest executed. -/
structure RequestResult where
  state : DoorState
  pulses : Nat
  trace : List ℚ
  tookBounceBack : Bool
deriving DecidableEq, Repr

/-- pressButton: toggles doorIsMoving, and when the new value is true also
toggles lastDirectionWasUp. The pin writes and the hold and cooldown waits
carry no model state. -/
def pressButton (s : DoorState) : DoorState :=
  let moving := !s.doorIsMoving
  { s with
      doorIsMoving := moving,
      lastDirectionWasUp := if moving then !s.lastDirectionWasUp else s.lastDirectionWasUp }

/-- correctHeightBounds: clamp a target height into the interval from 0 to
DOOR_HEIGHT_FEET. -/
def correctHeightBounds (height : ℚ) : ℚ :=
  max 0 (min DOOR_HEIGHT_FEET height)

/-- calculateTimeToReachHeight: travel time from the current height to the
target at the direction-dependent rate, minus one signal-hold window when
the motion will be stopped early by a pulse. -/
def calculateTimeToReachHeight (currentDoorHeight : ℚ) (height : ℚ) (shouldGoUp : Bool) (isStoppingEarly : Bool) : ℚ :=
  let distance := |height - currentDoorHeight|
  let rate := if shouldGoUp then DOOR_OPEN_RATE_FEET_PER_SEC else DOOR_CLOSE_RATE_FEET_PER_SEC
  distance / rate - (if isStoppingEarly then DOOR_OPENER_SIGNAL_HOLD_TIME_SEC else 0)

/-- Signed rate used by the double-press correction: the open rate when the
new direction is up, the negated close rate otherwise. -/
def doublePressRate (shouldGoUp : Bool) : ℚ :=
  if shouldGoUp then DOOR_OPEN_RATE_FEET_PER_SEC else DOOR_CLOSE_RATE_FEET_PER_SEC * (-1)

/-- conditionallyDoDoublePress: when the door is strictly between the floor
and full height and the desired direction equals the latched direction,
press twice, advancing currentDoorHeight by the inter-press spacing times
the signed rate between the presses and by the hold time times the signed
rate after the second press. -/
def conditionallyDoDoublePress (shouldGoUp : Bool) (s : DoorState) : StepResult :=
  if s.currentDoorHeight > 0 ∧ s.currentDoorHeight < DOOR_HEIGHT_FEET ∧ shouldGoUp = s.lastDirectionWasUp then
    let s1 := pressButton s
    let rate := doublePressRate shouldGoUp
    let h1 := s1.currentDoorHeight + MIN_TIME_BETWEEN_BUTTON_PRESSES_SEC * rate
    let s2 := { s1 with currentDoorHeight := h1 }
    let s3 := pressButton s2
    let h2 := s3.currentDoorHeight + DOOR_OPENER_SIGNAL_HOLD_TIME_SEC * rate
    ⟨{ s3 with currentDoorHeight := h2 }, 2, [h1, h2]⟩
  else
    ⟨s, 0, []⟩

/-- Height the door is extrapolated to reach after bouncing back: 1.1 times
the bounce-back threshold. Assigned by the timer callback of
waitForDoorToGetAboveBounceBackHeight. -/
def heightAboveBounceBackHeight : ℚ := DOOR_MAX_AUTO_BOUNCE_BACK_HEIGHT_FEET * (11 / 10)

/-- handleBounceBack: press to let the door run to the floor and bounce
back; the awaited wait timer sets currentDoorHeight to the height above the
bounce threshold. If the request wanted the door up, done; otherwise press
to stop, compensate for the press delay at the open rate, and press again
to resume downward motion. -/
def handleBounceBack (shouldGoUp : Bool) (s : DoorState) : StepResult :=
  let s1 := pressButton s
  let s2 := { s1 with currentDoorHeight := heightAboveBounceBackHeight }
  if shouldGoUp then
    ⟨s2, 1, [heightAboveBounceBackHeight]⟩
  else
    let s3 := pressButton s2
    let h1 := s3.currentDoorHeight + DOOR_OPEN_RATE_FEET_PER_SEC * DOOR_AUTO_BOUNCE_BACK_DELAY_SEC
    let s4 := { s3 with currentDoorHeight := h1 }
    ⟨pressButton s4, 3, [heightAboveBounceBackHeight, h1]⟩

/-- moveToFinalHeight, with its completion timer already fired: when the
target is a strict interior point the motion is stopped early by one more
press; then currentDoorHeight is committed to the target. The scheduled
duration itself is calculateTimeToReachHeight and is verified separately. -/
def moveToFinalHeight (height : ℚ) (shouldGoUp : Bool) (s : DoorState) : StepResult :=
  if height < DOOR_HEIGHT_FEET ∧ height > 0 then
    ⟨{ pressButton s with currentDoorHeight := height }, 1, [height]⟩
  else
    ⟨{ s with currentDoorHeight := height }, 0, [height]⟩

/-- handleHeightRequest: clamp the target, resolve the direction, branch to
bounce-back handling when the door sits at or below the bounce threshold,
strictly above zero, with the latched direction not up; otherwise do the
conditional double press followed by the primary press. Finally run
moveToFinalHeight to resolution. -/
def handleHeightRequest (height0 : ℚ) (s : DoorState) : RequestResult :=
  let height := correctHeightBounds height0
  let shouldGoUp : Bool := decide (height > s.currentDoorHeight)
  if s.currentDoorHeight ≤ DOOR_MAX_AUTO_BOUNCE_BACK_HEIGHT_FEET ∧ s.currentDoorHeight > 0 ∧ s.lastDirectionWasUp = false then
    let r1 := handleBounceBack shouldGoUp s
    let r2 := moveToFinalHeight height shouldGoUp r1.state
    ⟨r2.state, r1.pulses + r2.pulses, r1.trace ++ r2.trace, true⟩
  else
    let rd := conditionallyDoDoublePress shouldGoUp s
    let r1 : StepResult := ⟨pressButton rd.state, rd.pulses + 1, rd.trace⟩
    let r2 := moveToFinalHeight height shouldGoUp r1.state
    ⟨r2.state, r1.pulses + r2.pulses, r1.trace ++ r2.trace, false⟩

/-- Model of the JavaScript truthiness fallback x or-else d: a null or zero
value falls back to the default. -/
def jsOrQ (value : Option ℚ) (fallback : ℚ) : ℚ :=
  match value with
  | none => fallback
  | some v => if v = 0 then fallback else v

/-- handleDistanceRequest: a relative request becomes an absolute one at the
current height plus or minus the distance, a missing or zero distance
meaning the full door height. -/
def handleDistanceRequest (movement : Movement) (distance : Option ℚ) (s : DoorState) : RequestResult :=
  let calculatedDistance : ℚ := jsOrQ distance DOOR_HEIGHT_FEET * (if movement = Movement.up then 1 else -1)
  handleHeightRequest (s.currentDoorHeight + calculatedDistance) s

/-- handleRequest: the public entry point; a to request goes directly to the
height handler with a missing amount falling back to 0, other requests go
through the distance handler. -/
def handleRequest (movement : Movement) (number : Option ℚ) (s : DoorState) : RequestResult :=
  if movement = Movement.to then
    handleHeightRequest (jsOrQ number 0) s
  else
    handleDistanceRequest movement number s

/-- Absolute target height a request resolves to before clamping, as
computed by handleRequest and handleDistanceRequest. -/
def resolveTarget (s : DoorState) (movement : Movement) (number : Option ℚ) : ℚ :=
  if movement = Movement.to then
    jsOrQ number 0
  else
    s.currentDoorHeight + jsOrQ number DOOR_HEIGHT_FEET * (if movement = Movement.up then 1 else -1)

/-- One incoming movement request. -/
structure Request where
  movement : Movement
  amount : Option ℚ
deriving DecidableEq, Repr

/-- Run a list of requests to resolution, in order, from a given state. -/
def run (s : DoorState) (requests : List Request) : DoorState :=
  requests.foldl (fun st r => (handleRequest r.movement r.amount st).state) s

-- #region Pending-timer registry (for the emergency stop)

/-- One entry of the timeouts array: the height its callback will commit,
and whether the callback presses the button first (the isStoppingEarly case
of moveToFinalHeight; false for the bounce-back wait callback). -/
structure PendingTimeout where
  targetHeight : ℚ
  pressToStop : Bool
deriving DecidableEq, Repr

/-- GarageDoorHandler with its timeouts array of pending completion
callbacks. -/
structure ControllerState where
  door : DoorState
  timeouts : List PendingTimeout
deriving DecidableEq, Repr

/-- moveToFinalHeight at scheduling time: pushes its completion callback
onto the timeouts array without running it. -/
def moveToFinalHeightSchedule (height : ℚ) (c : ControllerState) : ControllerState :=
  { c with timeouts := c.timeouts ++ [⟨height, decide (height < DOOR_HEIGHT_FEET ∧ height > 0)⟩] }

/-- Fire the next pending completion callback, if any: it removes itself
from the array, presses the button when it was a stopping-early callback,
and commits its target height. Returns the pulses issued. -/
def fireNextTimeout (c : ControllerState) : ControllerState × Nat :=
  match c.timeouts with
  | [] => (c, 0)
  | t :: rest =>
    if t.pressToStop then
      ({ door := { pressButton c.door with currentDoorHeight := t.targetHeight }, timeouts := rest }, 1)
    else
      ({ door := { c.door with currentDoorHeight := t.targetHeight }, timeouts := rest }, 0)

/-- stop: clear every pending timeout, then press the button exactly once
when the door is moving. Returns the pulses issued. -/
def stop (c : ControllerState) : ControllerState × Nat :=
  let cleared : ControllerState := { c with timeouts := [] }
  if cleared.door.doorIsMoving then
    ({ cleared with door := pressButton cleared.door }, 1)
  else
    (cleared, 0)

-- #endregion

-- #region Helper lemmas

theorem moveToFinalHeight_currentDoorHeight (height : ℚ) (shouldGoUp : Bool) (s : DoorState) :
    (moveToFinalHeight height shouldGoUp s).state.currentDoorHeight = height := by
  unfold moveToFinalHeight
  split <;> rfl

theorem willBounceBack_false (s : DoorState) :
    ¬ (s.currentDoorHeight ≤ DOOR_MAX_AUTO_BOUNCE_BACK_HEIGHT_FEET ∧ s.currentDoorHeight > 0 ∧ s.lastDirectionWasUp = false) := by
  rintro ⟨a, b, -⟩
  simp only [DOOR_MAX_AUTO_BOUNCE_BACK_HEIGHT_FEET] at a
  linarith

theorem handleHeightRequest_normal (height0 : ℚ) (s : DoorState) :
    handleHeightRequest height0 s =
      (let height := correctHeightBounds height0
       let shouldGoUp : Bool := decide (height > s.currentDoorHeight)
       let rd := conditionallyDoDoublePress shouldGoUp s
       let r2 := moveToFinalHeight height shouldGoUp (pressButton rd.state)
       ⟨r2.state, rd.pulses + 1 + r2.pulses, rd.trace ++ r2.trace, false⟩) := by
  unfold handleHeightRequest
  rw [if_neg (willBounceBack_false s)]

theorem handleHeightRequest_currentDoorHeight (height0 : ℚ) (s : DoorState) :
    (handleHeightRequest height0 s).state.currentDoorHeight = correctHeightBounds height0 := by
  rw [handleHeightRequest_normal]
  exact moveToFinalHeight_currentDoorHeight ..

theorem handleHeightRequest_tookBounceBack (height0 : ℚ) (s : DoorState) :
    (handleHeightRequest height0 s).tookBounceBack = false := by
  rw [handleHeightRequest_normal]

theorem handleHeightRequest_pulses_pos (height0 : ℚ) (s : DoorState) :
    1 ≤ (handleHeightRequest height0 s).pulses := by
  rw [handleHeightRequest_normal]
  dsimp only
  omega

theorem handleRequest_currentDoorHeight (m : Movement) (n : Option ℚ) (s : DoorState) :
    (handleRequest m n s).state.currentDoorHeight = correctHeightBounds (resolveTarget s m n) := by
  cases m <;>
    simp [handleRequest, handleDistanceRequest, resolveTarget, handleHeightRequest_currentDoorHeight]

theorem correctHeightBounds_nonneg (h : ℚ) : 0 ≤ correctHeightBounds h := by
  unfold correctHeightBounds
  exact le_max_left 0 _

theorem correctHeightBounds_le (h : ℚ) : correctHeightBounds h ≤ DOOR_HEIGHT_FEET := by
  unfold correctHeightBounds
  exact max_le (by norm_num [DOOR_HEIGHT_FEET]) (min_le_left _ _)

theorem correctHeightBounds_eq_self (h : ℚ) (h0 : 0 ≤ h) (h1 : h ≤ DOOR_HEIGHT_FEET) :
    correctHeightBounds h = h := by
  unfold correctHeightBounds
  rw [min_eq_right h1, max_eq_right h0]

theorem jsOrQ_some_zero_fb (v : ℚ) : jsOrQ (some v) 0 = v := by
  unfold jsOrQ
  split <;> simp_all

theorem run_cons (s : DoorState) (r : Request) (rs : List Request) :
    run s (r :: rs) = run ((handleRequest r.movement r.amount s).state) rs := rfl

theorem run_bounds (rs : List Request) (s : DoorState)
    (h0 : 0 ≤ s.currentDoorHeight) (h1 : s.currentDoorHeight ≤ DOOR_HEIGHT_FEET) :
    0 ≤ (run s rs).currentDoorHeight ∧ (run s rs).currentDoorHeight ≤ DOOR_HEIGHT_FEET := by
  induction rs generalizing s with
  | nil => exact ⟨h0, h1⟩
  | cons r rs ih =>
      rw [run_cons]
      exact ih _
        (by rw [handleRequest_currentDoorHeight]; exact correctHeightBounds_nonneg _)
        (by rw [handleRequest_currentDoorHeight]; exact correctHeightBounds_le _)

theorem run_initial_bounds (rs : List Request) :
    0 ≤ (run initialState rs).currentDoorHeight ∧
      (run initialState rs).currentDoorHeight ≤ DOOR_HEIGHT_FEET :=
  run_bounds rs initialState (le_refl 0) (by norm_num [initialState, DOOR_HEIGHT_FEET])

-- #endregion

-- #region Claim theorems

/-- Claim C8: for every height h, correctHeightBounds h lies in the interval
from 0 to DOOR_HEIGHT_FEET, equals max 0 (min DOOR_HEIGHT_FEET h), and is
idempotent. -/
theorem claim_clamp_spec (h : ℚ) :
    0 ≤ correctHeightBounds h ∧ correctHeightBounds h ≤ DOOR_HEIGHT_FEET ∧
    correctHeightBounds h = max 0 (min DOOR_HEIGHT_FEET h) ∧
    correctHeightBounds (correctHeightBounds h) = correctHeightBounds h :=
  ⟨correctHeightBounds_nonneg h, correctHeightBounds_le h, rfl,
   correctHeightBounds_eq_self _ (correctHeightBounds_nonneg h) (correctHeightBounds_le h)⟩

theorem pressButton_iterate_even (n : Nat) (s : DoorState) :
    (pressButton^[2 * n] s).doorIsMoving = s.doorIsMoving := by
  induction n generalizing s with
  | zero => rfl
  | succ k ih =>
      have hstep : 2 * (k + 1) = 2 * k + 2 := by ring
      rw [hstep, Function.iterate_add_apply]
      rw [show pressButton^[2] s = pressButton (pressButton s) from rfl]
      rw [ih (pressButton (pressButton s))]
      cases s with
      | mk h ld mv => cases mv <;> rfl

/-- Claim C9: pressButton toggles doorIsMoving, flips lastDirectionWasUp
exactly when the toggle moves doorIsMoving from false to true, and any even
number of presses restores doorIsMoving. -/
theorem claim_press_button_toggles (s : DoorState) (n : Nat) :
    (pressButton s).doorIsMoving = !s.doorIsMoving ∧
    (((pressButton s).lastDirectionWasUp = !s.lastDirectionWasUp) ↔ s.doorIsMoving = false) ∧
    (pressButton^[2 * n] s).doorIsMoving = s.doorIsMoving := by
  refine ⟨rfl, ?_, pressButton_iterate_even n s⟩
  cases s with
  | mk h ld mv => cases mv <;> cases ld <;> simp [pressButton]

/-- Claim C7: calculateTimeToReachHeight is the absolute distance over the
direction-dependent rate, minus one signal-hold window exactly when the
motion stops early; the open and close rates are distinct constants. -/
theorem claim_travel_time (fromHeight toHeight : ℚ) (shouldGoUp : Bool) :
    calculateTimeToReachHeight fromHeight toHeight shouldGoUp true =
      |toHeight - fromHeight| / (if shouldGoUp then DOOR_OPEN_RATE_FEET_PER_SEC else DOOR_CLOSE_RATE_FEET_PER_SEC)
        - DOOR_OPENER_SIGNAL_HOLD_TIME_SEC ∧
    calculateTimeToReachHeight fromHeight toHeight shouldGoUp false =
      |toHeight - fromHeight| / (if shouldGoUp then DOOR_OPEN_RATE_FEET_PER_SEC else DOOR_CLOSE_RATE_FEET_PER_SEC) ∧
    DOOR_OPEN_RATE_FEET_PER_SEC ≠ DOOR_CLOSE_RATE_FEET_PER_SEC := by
  refine ⟨rfl, ?_, ?_⟩
  · unfold calculateTimeToReachHeight
    simp
  · unfold DOOR_OPEN_RATE_FEET_PER_SEC DOOR_CLOSE_RATE_FEET_PER_SEC DOOR_OPEN_TIME_SEC DOOR_CLOSE_TIME_SEC DOOR_HEIGHT_FEET
    norm_num

/-- Claim C6: a request enters the bounce-back handling path if and only if
the current height is at or below the bounce-back threshold, strictly above
zero, and the latched direction was not up. -/
theorem claim_bounce_back_iff (s : DoorState) (height0 : ℚ) :
    (handleHeightRequest height0 s).tookBounceBack = true ↔
      (s.currentDoorHeight ≤ DOOR_MAX_AUTO_BOUNCE_BACK_HEIGHT_FEET ∧
       s.currentDoorHeight > 0 ∧ s.lastDirectionWasUp = false) := by
  rw [handleHeightRequest_tookBounceBack]
  simp only [Bool.false_eq_true, false_iff]
  exact willBounceBack_false s

/-- Claim C4: stop clears every pending completion timeout, presses the
button exactly once if and only if the door is moving, and once it has run
no pending completion callback can fire any more, so the tracked height is
not mutated by a request that was in flight before the stop. -/
theorem claim_stop_cancels (c : ControllerState) :
    (stop c).1.timeouts = [] ∧
    (stop c).2 = (if c.door.doorIsMoving then 1 else 0) ∧
    fireNextTimeout (stop c).1 = ((stop c).1, 0) ∧
    (fireNextTimeout (stop c).1).1.door.currentDoorHeight = (stop c).1.door.currentDoorHeight := by
  unfold stop
  by_cases h : c.door.doorIsMoving = true <;> simp [h, fireNextTimeout]

-- #endregion

-- #region More component lemmas

theorem moveToFinalHeight_pulses (height : ℚ) (u : Bool) (s : DoorState) :
    (moveToFinalHeight height u s).pulses = if height < DOOR_HEIGHT_FEET ∧ height > 0 then 1 else 0 := by
  unfold moveToFinalHeight
  split <;> simp_all

theorem moveToFinalHeight_trace (height : ℚ) (u : Bool) (s : DoorState) :
    (moveToFinalHeight height u s).trace = [height] := by
  unfold moveToFinalHeight
  split <;> rfl

theorem conditionallyDoDoublePress_pos_pulses (u : Bool) (s : DoorState)
    (hc : s.currentDoorHeight > 0 ∧ s.currentDoorHeight < DOOR_HEIGHT_FEET ∧ u = s.lastDirectionWasUp) :
    (conditionallyDoDoublePress u s).pulses = 2 := by
  unfold conditionallyDoDoublePress
  rw [if_pos hc]

theorem conditionallyDoDoublePress_pos_trace (u : Bool) (s : DoorState)
    (hc : s.currentDoorHeight > 0 ∧ s.currentDoorHeight < DOOR_HEIGHT_FEET ∧ u = s.lastDirectionWasUp) :
    (conditionallyDoDoublePress u s).trace =
      [s.currentDoorHeight + MIN_TIME_BETWEEN_BUTTON_PRESSES_SEC * doublePressRate u,
       s.currentDoorHeight + MIN_TIME_BETWEEN_BUTTON_PRESSES_SEC * doublePressRate u
         + DOOR_OPENER_SIGNAL_HOLD_TIME_SEC * doublePressRate u] := by
  unfold conditionallyDoDoublePress
  rw [if_pos hc]
  rfl

theorem conditionallyDoDoublePress_neg (u : Bool) (s : DoorState)
    (hc : ¬ (s.currentDoorHeight > 0 ∧ s.currentDoorHeight < DOOR_HEIGHT_FEET ∧ u = s.lastDirectionWasUp)) :
    conditionallyDoDoublePress u s = ⟨s, 0, []⟩ := by
  unfold conditionallyDoDoublePress
  rw [if_neg hc]

-- #endregion

/-- Claim C1: for every sequence of requests whose last request resolves
without entering the bounce-back path, the tracked height after resolution
equals the clamped resolved target of that request; in particular an up
request with no distance ends at DOOR_HEIGHT_FEET and a down request with
no distance ends at 0. -/
theorem claim_final_height (rs : List Request) (m : Movement) (n : Option ℚ)
    (hnb : (handleRequest m n (run initialState rs)).tookBounceBack = false) :
    (handleRequest m n (run initialState rs)).state.currentDoorHeight
        = correctHeightBounds (resolveTarget (run initialState rs) m n) ∧
    (m = Movement.up → n = none →
      (handleRequest m n (run initialState rs)).state.currentDoorHeight = DOOR_HEIGHT_FEET) ∧
    (m = Movement.down → n = none →
      (handleRequest m n (run initialState rs)).state.currentDoorHeight = 0) := by
  obtain ⟨hb0, hb1⟩ := run_initial_bounds rs
  have hH : (0:ℚ) ≤ DOOR_HEIGHT_FEET := by norm_num [DOOR_HEIGHT_FEET]
  refine ⟨handleRequest_currentDoorHeight m n _, ?_, ?_⟩
  · rintro rfl rfl
    rw [handleRequest_currentDoorHeight]
    rw [show resolveTarget (run initialState rs) Movement.up none
          = (run initialState rs).currentDoorHeight + DOOR_HEIGHT_FEET * 1 from rfl]
    rw [mul_one]
    unfold correctHeightBounds
    rw [min_eq_left (by linarith), max_eq_right hH]
  · rintro rfl rfl
    rw [handleRequest_currentDoorHeight]
    rw [show resolveTarget (run initialState rs) Movement.down none
          = (run initialState rs).currentDoorHeight + DOOR_HEIGHT_FEET * (-1) from rfl]
    rw [show (run initialState rs).currentDoorHeight + DOOR_HEIGHT_FEET * (-1)
          = (run initialState rs).currentDoorHeight - DOOR_HEIGHT_FEET by ring]
    unfold correctHeightBounds
    rw [min_eq_right (by linarith), max_eq_left (by linarith)]

/-- Witness for claim C1 at the empty history and an up request with no
distance: the hypothesis holds and the door ends fully open. -/
theorem claim_final_height_witness :
    (handleRequest Movement.up none (run initialState [])).tookBounceBack = false ∧
    (handleRequest Movement.up none (run initialState [])).state.currentDoorHeight = DOOR_HEIGHT_FEET := by
  have h0 : (handleRequest Movement.up none (run initialState [])).tookBounceBack = false := by
    simp [handleRequest, handleDistanceRequest, handleHeightRequest_tookBounceBack]
  exact ⟨h0, (claim_final_height [] Movement.up none h0).2.1 rfl rfl⟩

/-- Claim C2 counterexample: from the reachable state after requests to 5
feet and then to 0.2 feet, the first height mutation performed by the
double-press correction during a request to 0.1 feet assigns a value
strictly below 0, so the interval invariant does not hold after every
state mutation of every operation on reachable states. -/
theorem claim_height_invariant_counterexample :
    (handleRequest Movement.to (some (1/10))
      (run initialState [⟨Movement.to, some 5⟩, ⟨Movement.to, some (2/10)⟩])).trace.getD 0 0 < 0 := by
  simp only [run, List.foldl]
  norm_num [handleRequest, handleDistanceRequest, handleHeightRequest, correctHeightBounds,
    conditionallyDoDoublePress, handleBounceBack, moveToFinalHeight, pressButton, jsOrQ,
    doublePressRate, DOOR_HEIGHT_FEET, DOOR_MAX_AUTO_BOUNCE_BACK_HEIGHT_FEET, initialState,
    MIN_TIME_BETWEEN_BUTTON_PRESSES_SEC, DOOR_CLOSE_RATE_FEET_PER_SEC, DOOR_CLOSE_TIME_SEC,
    DOOR_OPENER_SIGNAL_HOLD_TIME_SEC]

/-- Claim C2 amended: the interval invariant on the tracked height holds
at the resolution of every request, for every state reachable from the
initial state, though not after every intermediate mutation. -/
theorem claim_height_invariant_at_resolution (rs : List Request) :
    0 ≤ (run initialState rs).currentDoorHeight ∧
      (run initialState rs).currentDoorHeight ≤ DOOR_HEIGHT_FEET :=
  run_initial_bounds rs

/-- Claim C3 counterexample: a to request whose target equals the current
height (0 at the initial state) issues one pulse, not zero, and flips
doorIsMoving, so it is not a no-op. -/
theorem claim_to_current_counterexample :
    initialState.currentDoorHeight = 0 ∧
    (handleRequest Movement.to (some 0) initialState).pulses = 1 ∧
    (handleRequest Movement.to (some 0) initialState).state.doorIsMoving = true ∧
    initialState.doorIsMoving = false := by
  refine ⟨rfl, ?_, ?_, rfl⟩ <;>
    norm_num [handleRequest, handleHeightRequest, correctHeightBounds, conditionallyDoDoublePress,
      moveToFinalHeight, pressButton, jsOrQ, initialState, DOOR_HEIGHT_FEET,
      DOOR_MAX_AUTO_BOUNCE_BACK_HEIGHT_FEET]

/-- Claim C3 amended: a to request whose target equals the current tracked
height restores that height when it resolves, but it is not a no-op: at
least one pulse is always issued (and doorIsMoving or lastDirectionWasUp
can change). -/
theorem claim_to_current_amended (rs : List Request) (h : ℚ)
    (hh : h = (run initialState rs).currentDoorHeight) :
    (handleRequest Movement.to (some h) (run initialState rs)).state.currentDoorHeight
        = (run initialState rs).currentDoorHeight ∧
    1 ≤ (handleRequest Movement.to (some h) (run initialState rs)).pulses := by
  obtain ⟨hb0, hb1⟩ := run_initial_bounds rs
  constructor
  · rw [handleRequest_currentDoorHeight]
    rw [show resolveTarget (run initialState rs) Movement.to (some h) = jsOrQ (some h) 0 from rfl]
    rw [jsOrQ_some_zero_fb, hh]
    exact correctHeightBounds_eq_self _ hb0 hb1
  · show 1 ≤ (handleHeightRequest (jsOrQ (some h) 0) (run initialState rs)).pulses
    exact handleHeightRequest_pulses_pos ..

/-- Witness for amended claim C3 at the initial state with target 0. -/
theorem claim_to_current_amended_witness :
    (handleRequest Movement.to (some 0) (run initialState [])).state.currentDoorHeight
        = (run initialState []).currentDoorHeight ∧
    1 ≤ (handleRequest Movement.to (some 0) (run initialState [])).pulses :=
  claim_to_current_amended [] 0 rfl

/-- Claim C5: a request whose clamped target differs from the current
height takes the double-press correction exactly when the door is strictly
between the floor and full height and the desired direction equals the
latched direction; on that path exactly two pulses precede the primary
pulse, the height advancing by the inter-press spacing times the signed
rate between them and by the hold time times the signed rate after the
second; off that path no extra pulses or mutations occur. -/
theorem claim_double_press (s : DoorState) (height0 : ℚ)
    (hne : correctHeightBounds height0 ≠ s.currentDoorHeight) :
    ((s.currentDoorHeight > 0 ∧ s.currentDoorHeight < DOOR_HEIGHT_FEET ∧
        decide (correctHeightBounds height0 > s.currentDoorHeight) = s.lastDirectionWasUp) →
      (handleHeightRequest height0 s).pulses =
        2 + 1 + (if correctHeightBounds height0 < DOOR_HEIGHT_FEET ∧ correctHeightBounds height0 > 0 then 1 else 0) ∧
      (handleHeightRequest height0 s).trace =
        [s.currentDoorHeight + MIN_TIME_BETWEEN_BUTTON_PRESSES_SEC
            * doublePressRate (decide (correctHeightBounds height0 > s.currentDoorHeight)),
         s.currentDoorHeight + MIN_TIME_BETWEEN_BUTTON_PRESSES_SEC
            * doublePressRate (decide (correctHeightBounds height0 > s.currentDoorHeight))
          + DOOR_OPENER_SIGNAL_HOLD_TIME_SEC
            * doublePressRate (decide (correctHeightBounds height0 > s.currentDoorHeight)),
         correctHeightBounds height0]) ∧
    (¬ (s.currentDoorHeight > 0 ∧ s.currentDoorHeight < DOOR_HEIGHT_FEET ∧
        decide (correctHeightBounds height0 > s.currentDoorHeight) = s.lastDirectionWasUp) →
      (handleHeightRequest height0 s).pulses =
        1 + (if correctHeightBounds height0 < DOOR_HEIGHT_FEET ∧ correctHeightBounds height0 > 0 then 1 else 0) ∧
      (handleHeightRequest height0 s).trace = [correctHeightBounds height0]) := by
  constructor
  · intro hc
    rw [handleHeightRequest_normal]
    dsimp only
    constructor
    · rw [conditionallyDoDoublePress_pos_pulses _ _ hc, moveToFinalHeight_pulses]
    · rw [conditionallyDoDoublePress_pos_trace _ _ hc, moveToFinalHeight_trace]
      rfl
  · intro hc
    rw [handleHeightRequest_normal]
    dsimp only
    constructor
    · rw [conditionallyDoDoublePress_neg _ _ hc, moveToFinalHeight_pulses]
    · rw [conditionallyDoDoublePress_neg _ _ hc, moveToFinalHeight_trace]
      rfl

/-- Witness for claim C5 at height 2 with latched direction down and a
request to 1 foot: the double-press condition holds and four pulses are
issued in total. -/
theorem claim_double_press_witness :
    (handleHeightRequest 1 (DoorState.mk 2 false false)).pulses = 4 := by
  have hclamp : correctHeightBounds 1 = 1 := by
    unfold correctHeightBounds
    rw [min_eq_right (by norm_num [DOOR_HEIGHT_FEET]), max_eq_right (by norm_num)]
  have hne : correctHeightBounds 1 ≠ (DoorState.mk 2 false false).currentDoorHeight := by
    rw [hclamp]
    norm_num
  have hc : (DoorState.mk 2 false false).currentDoorHeight > 0 ∧
      (DoorState.mk 2 false false).currentDoorHeight < DOOR_HEIGHT_FEET ∧
      decide (correctHeightBounds 1 > (DoorState.mk 2 false false).currentDoorHeight)
        = (DoorState.mk 2 false false).lastDirectionWasUp := by
    refine ⟨by norm_num, by norm_num [DOOR_HEIGHT_FEET], ?_⟩
    rw [hclamp]
    simp
  have h := ((claim_double_press (DoorState.mk 2 false false) 1 hne).1 hc).1
  rw [h, hclamp]
  norm_num [DOOR_HEIGHT_FEET]

/-- Claim C10: at handleRequest a zero amount behaves like an absent one:
up or down with distance 0 behave exactly like the missing-distance forms
and target the top and the floor respectively, and a to request with a
missing amount resolves to target height 0. -/
theorem claim_zero_amount (rs : List Request) :
    handleRequest Movement.up (some 0) (run initialState rs)
        = handleRequest Movement.up none (run initialState rs) ∧
    handleRequest Movement.down (some 0) (run initialState rs)
        = handleRequest Movement.down none (run initialState rs) ∧
    (handleRequest Movement.up (some 0) (run initialState rs)).state.currentDoorHeight = DOOR_HEIGHT_FEET ∧
    (handleRequest Movement.down (some 0) (run initialState rs)).state.currentDoorHeight = 0 ∧
    resolveTarget (run initialState rs) Movement.to none = 0 ∧
    (handleRequest Movement.to none (run initialState rs)).state.currentDoorHeight = 0 := by
  obtain ⟨hb0, hb1⟩ := run_initial_bounds rs
  have hH : (0:ℚ) ≤ DOOR_HEIGHT_FEET := by norm_num [DOOR_HEIGHT_FEET]
  refine ⟨rfl, rfl, ?_, ?_, rfl, ?_⟩
  · rw [handleRequest_currentDoorHeight]
    rw [show resolveTarget (run initialState rs) Movement.up (some 0)
          = (run initialState rs).currentDoorHeight + DOOR_HEIGHT_FEET * 1 from rfl]
    rw [mul_one]
    unfold correctHeightBounds
    rw [min_eq_left (by linarith), max_eq_right hH]
  · rw [handleRequest_currentDoorHeight]
    rw [show resolveTarget (run initialState rs) Movement.down (some 0)
          = (run initialState rs).currentDoorHeight + DOOR_HEIGHT_FEET * (-1) from rfl]
    rw [show (run initialState rs).currentDoorHeight + DOOR_HEIGHT_FEET * (-1)
          = (run initialState rs).currentDoorHeight - DOOR_HEIGHT_FEET by ring]
    unfold correctHeightBounds
    rw [min_eq_right (by linarith), max_eq_left (by linarith)]
  · rw [handleRequest_currentDoorHeight]
    rw [show resolveTarget (run initialState rs) Movement.to none = (0:ℚ) from rfl]
    exact correctHeightBounds_eq_self 0 le_rfl hH
